import Mathlib

/-!
Verification of the Street Art Fashion API backend (`src/main.py`) against its
natural-language specification.

The Python module is shallowly embedded:
  * JSON/Python values are the inductive `Value`; dictionaries are association
    lists with string keys (`Dict`), looked up by `dictGet` / `dictGetD`
    (mirroring `dict.get`).
  * Python coercions `bool(..)`, `float(..)`, `str(..)` and the truthiness
    operator `x or y` are `pyBool`, `pyFloat`, `pyStr`, `pyOr`.
  * Pydantic models become Lean structures; constructing one validates its
    fields, so the constructors are `Except`-valued.
  * The document store adapter (module `database`: `db`, `create_document`,
    `get_documents`, plus the raw `pymongo` collection calls) is not part of
    the source tree; it is modelled from the spec, §4.1, as an explicit
    `Store` state with injectable failure modes.
  * An HTTP handler becomes a function from the store state (and request
    data) to the new store state and an `HResp`: a 200 payload, a raised
    `HTTPException` (status + detail), or an exception that escaped the
    handler uncaught.
-/

set_option autoImplicit false

namespace StreetArt

/-- A Python/JSON value as it appears in request bodies and stored documents:
`None`, a bool, a number (modelled as a rational), a string, or a list. -/
inductive Value where
  | none
  | bool (b : Bool)
  | num (q : ℚ)
  | str (s : String)
  | list (xs : List Value)

/-- A Python dictionary with string keys: an association list where the first
binding of a key is the one that counts. -/
abbrev Dict := List (String × Value)

/-- `d.get(k)` (no default): the value bound to `k`, if any. -/
def dictGet (d : Dict) (k : String) : Option Value :=
  (d.find? (fun kv => kv.1 = k)).map (·.2)

/-- `d.get(k, dflt)`: the value bound to `k`, or `dflt` when `k` is absent. -/
def dictGetD (d : Dict) (k : String) (dflt : Value) : Value :=
  (dictGet d k).getD dflt

/-- Python truthiness, `bool(v)`: `None`, `False`, `0`, `""` and `[]` are
falsy, everything else is truthy. -/
def pyBool : Value → Bool
  | .none => false
  | .bool b => b
  | .num q => decide (q ≠ 0)
  | .str s => decide (s ≠ "")
  | .list xs => !xs.isEmpty

/-- Python `x or y`: `x` when `x` is truthy, else `y`. -/
def pyOr (x y : Value) : Value :=
  if pyBool x then x else y

/-- The numeric value of a non-empty list of decimal digit characters. -/
def digitsVal? (cs : List Char) : Option Nat :=
  if cs ≠ [] ∧ cs.all Char.isDigit then
    some (cs.foldl (fun a c => a * 10 + (c.toNat - 48)) 0)
  else
    Option.none

/-- Parse a decimal float literal (optional sign, integer part, optional
fractional part), as accepted by Python's `float(str)`. -/
def parseFloat (s : String) : Option ℚ :=
  let t := s.trim
  let (neg, cs) : Bool × List Char :=
    match t.toList with
    | '-' :: rest => (true, rest)
    | '+' :: rest => (false, rest)
    | l => (false, l)
  let mag : Option ℚ :=
    match cs.splitOn '.' with
    | [ip] => (digitsVal? ip).map (fun n => (n : ℚ))
    | [[], fp] => (digitsVal? fp).map (fun f => (f : ℚ) / ((10 : ℚ) ^ fp.length))
    | [ip, []] => (digitsVal? ip).map (fun n => (n : ℚ))
    | [ip, fp] =>
      match digitsVal? ip, digitsVal? fp with
      | some n, some f => some ((n : ℚ) + (f : ℚ) / ((10 : ℚ) ^ fp.length))
      | _, _ => Option.none
    | _ => Option.none
  mag.map (fun q => if neg then -q else q)

/-- Python `float(v)`: numbers pass through, bools become `0`/`1`, strings
are parsed as float literals; `None` and lists raise `TypeError` (here:
`Option.none`). -/
def pyFloat : Value → Option ℚ
  | .num q => some q
  | .bool b => some (if b then 1 else 0)
  | .str s => parseFloat s
  | .none => Option.none
  | .list _ => Option.none

/-- Python `str(v)`, as far as the handlers use it (notably
`str(None) = "None"` for a missing `_id`). -/
def pyStr : Value → String
  | .none => "None"
  | .bool b => if b then "True" else "False"
  | .num q => if q.den = 1 then toString q.num ++ ".0" else toString q.num ++ "/" ++ toString q.den
  | .str s => s
  | .list _ => "[...]"

/-! ## Pydantic models

`ProductCreate` (main.py lines 22-29) and `ProductOut = ProductCreate + id`
(lines 32-33).  A pydantic model validates its fields on construction, so
building one from raw values is `Except`-valued.  `ProductOut` inherits the
`price >= 0` constraint (`Field(..., ge=0)`) from `ProductCreate`.
-/

/-- The validated `ProductCreate` payload (main.py lines 22-29).  `colors` is
`Optional[List[str]]`, so an explicit JSON `null` validates to `none`; an
omitted field gets the declared default `some []` (`default_factory=list`). -/
structure ProductCreate where
  title : String
  description : Option String
  price : ℚ
  category : String
  in_stock : Bool
  image : Option String
  colors : Option (List String)
deriving Repr, DecidableEq

/-- The API-facing product (main.py lines 32-33): `ProductCreate` plus the
store-assigned `id`, with `colors` always materialised as a list by
`serialize_product`. -/
structure ProductOut where
  id : String
  title : String
  description : Option String
  price : ℚ
  category : String
  in_stock : Bool
  image : Option String
  colors : List String
deriving Repr, DecidableEq

/-- Pydantic validation of a `str` field: only a string is accepted. -/
def asStr (field : String) : Value → Except String String
  | .str s => .ok s
  | _ => .error (field ++ ": Input should be a valid string")

/-- Pydantic validation of an `Optional[str]` field: `None` or a string. -/
def asOptStr (field : String) : Value → Except String (Option String)
  | .none => .ok Option.none
  | .str s => .ok (some s)
  | _ => .error (field ++ ": Input should be a valid string")

/-- Element-wise pydantic validation of the entries of a `List[str]` field:
the first non-string element fails the whole list. -/
def asStrEach (field : String) : List Value → Except String (List String)
  | [] => .ok []
  | v :: vs =>
    match asStr field v with
    | .error m => .error m
    | .ok s =>
      match asStrEach field vs with
      | .error m => .error m
      | .ok ss => .ok (s :: ss)

/-- Pydantic validation of a `List[str]` field: a list whose elements are all
strings. -/
def asStrList (field : String) : Value → Except String (List String)
  | .list xs => asStrEach field xs
  | _ => .error (field ++ ": Input should be a valid list")

/-- `serialize_product` (main.py lines 85-95): converts a raw stored document
into a `ProductOut`.  Absent fields are defaulted (`doc.get` with a default),
`price` goes through Python's `float(..)` (which raises on `None` or other
non-numeric values), `in_stock` through `bool(..)`, and `colors` through
`doc.get("colors") or []`.  Constructing the `ProductOut` then runs pydantic
validation on every field, including the inherited `price >= 0` bound. -/
def serialize_product (doc : Dict) : Except String ProductOut :=
  match pyFloat (dictGetD doc "price" (Value.num 0)) with
  | Option.none => .error "float() argument must be a string or a real number"
  | some price =>
    match asStr "title" (dictGetD doc "title" (Value.str "")) with
    | .error m => .error m
    | .ok title =>
      match asOptStr "description" (dictGetD doc "description" Value.none) with
      | .error m => .error m
      | .ok desc =>
        if 0 ≤ price then
          match asStr "category" (dictGetD doc "category" (Value.str "streetwear")) with
          | .error m => .error m
          | .ok cat =>
            match asOptStr "image" (dictGetD doc "image" Value.none) with
            | .error m => .error m
            | .ok img =>
              match asStrList "colors" (pyOr (dictGetD doc "colors" Value.none) (Value.list [])) with
              | .error m => .error m
              | .ok colors =>
                .ok ⟨pyStr (dictGetD doc "_id" Value.none), title, desc, price, cat,
                     pyBool (dictGetD doc "in_stock" (Value.bool true)), img, colors⟩
        else
          .error "price: Input should be greater than or equal to 0"

/-! ## Document store adapter (spec-modelled) -/

/-- Modelled from the spec: the `database` module (`db`, `create_document`,
`get_documents`) and the underlying pymongo collection are not in the source
tree.  Per §4.1 the adapter is a black-box document store: `db` may be
uninitialised (`dbSome = false`, every operation fails fast with
`StoreUnavailable`), and each primitive — counting, inserting, reading — may
fail with an underlying store error, modelled by the injectable messages
`countErr`, `writeErr`, `readErr`.  The `product` collection is a list of
documents in store order, and identifiers are generated from the counter
`nextId`. -/
structure Store where
  dbSome : Bool
  product : List Dict
  nextId : ℕ
  countErr : Option String
  writeErr : Option String
  readErr : Option String

/-- Modelled from the spec: the store-generated identifier for the `n`-th
insertion — an opaque string, unique because `nextId` only grows. -/
def genId (n : ℕ) : String :=
  "oid" ++ toString n

/-- Modelled from the spec: `create_document(collection, doc) -> id` (§4.1
`insert`).  Fails fast when the store is unavailable or on a write error;
otherwise appends the document, stamped with a fresh `_id`, and returns the
generated identifier as a string. -/
def create_document (st : Store) (doc : Dict) : Except String (Store × String) :=
  if st.dbSome = false then
    .error "StoreUnavailable: database not initialized"
  else
    match st.writeErr with
    | some m => .error m
    | Option.none =>
      let oid := genId st.nextId
      .ok ({ st with product := st.product ++ [("_id", Value.str oid) :: doc],
                     nextId := st.nextId + 1 }, oid)

/-- Modelled from the spec: `get_documents(collection, {}, limit)` (§4.1
`find` with an empty filter): up to `limit` documents in store order.  A
non-positive limit yields no documents. -/
def get_documents (st : Store) (lim : ℤ) : Except String (List Dict) :=
  if st.dbSome = false then
    .error "StoreUnavailable: database not initialized"
  else
    match st.readErr with
    | some m => .error m
    | Option.none => .ok (st.product.take lim.toNat)

/-- Modelled from the spec: `coll.count_documents({})` (§4.1 `count`), used
only to detect emptiness for seeding.  `ensure_seed_products` only calls it
when `db` is not `None`, so only the underlying error mode appears here. -/
def count_documents (st : Store) : Except String ℕ :=
  match st.countErr with
  | some m => .error m
  | Option.none => .ok st.product.length

/-- Modelled from the spec: `db["product"].find_one({"_id": ObjectId(id)})`
— the first stored document whose `_id` equals the given identifier. -/
def find_one (st : Store) (oid : String) : Option Dict :=
  st.product.find? (fun d =>
    match dictGet d "_id" with
    | some (.str s) => s == oid
    | _ => false)

/-! ## Seeding routine (main.py lines 100-144) -/

/-- The fixed seed documents (main.py lines 105-142), in source order. -/
def seed_items : List Dict :=
  [[("title", .str "Neon Graffiti Hoodie"),
    ("description", .str "Oversized hoodie splashed with neon tags and glow ink."),
    ("price", .num 89),
    ("category", .str "hoodies"),
    ("in_stock", .bool true),
    ("image", .str "https://images.unsplash.com/photo-1512436991641-6745cdb1723f?q=80&w=1600&auto=format&fit=crop"),
    ("colors", .list [.str "#7C3AED", .str "#06B6D4", .str "#F59E0B"])],
   [("title", .str "Street Halo Sneakers"),
    ("description", .str "Chunky sneakers with iridescent spray gradients."),
    ("price", .num 129),
    ("category", .str "sneakers"),
    ("in_stock", .bool true),
    ("image", .str "https://images.unsplash.com/photo-1542291026-7eec264c27ff?q=80&w=1600&auto=format&fit=crop"),
    ("colors", .list [.str "#22D3EE", .str "#A78BFA", .str "#F472B6"])],
   [("title", .str "Stickerbomb Cargo Pants"),
    ("description", .str "Tactical cargos with removable sticker patches."),
    ("price", .num 74),
    ("category", .str "pants"),
    ("in_stock", .bool true),
    ("image", .str "https://images.unsplash.com/photo-1520975922284-5420f8d7c44a?q=80&w=1600&auto=format&fit=crop"),
    ("colors", .list [.str "#10B981", .str "#F43F5E", .str "#60A5FA"])],
   [("title", .str "Drip Aura Cap"),
    ("description", .str "6-panel cap with melting chrome embroidery."),
    ("price", .num 39),
    ("category", .str "hats"),
    ("in_stock", .bool true),
    ("image", .str "https://images.unsplash.com/photo-1517702145080-e0f9a3fd0c49?q=80&w=1600&auto=format&fit=crop"),
    ("colors", .list [.str "#FB7185", .str "#34D399", .str "#818CF8"])]]

/-- The `for item in seed_items: create_document("product", item)` loop
(main.py lines 143-144): inserts documents in order, stopping (with the
escaping exception) at the first failed insert. -/
def seedLoop (st : Store) : List Dict → Store × Option String
  | [] => (st, Option.none)
  | d :: rest =>
    match create_document st d with
    | .error m => (st, some m)
    | .ok (st', _) => seedLoop st' rest

/-- `ensure_seed_products` (main.py lines 100-144): returns immediately when
`db` is `None`; otherwise counts the `product` collection and, only when the
count is `0`, inserts the four seed documents in order.  The second component
is the message of an exception escaping the routine, if any — the routine
itself catches nothing. -/
def ensure_seed_products (st : Store) : Store × Option String :=
  if st.dbSome = false then
    (st, Option.none)
  else
    match count_documents st with
    | .error m => (st, some m)
    | .ok n =>
      if n = 0 then
        seedLoop st seed_items
      else
        (st, Option.none)

/-! ## HTTP handlers -/

/-- The outcome of an HTTP handler: a 200 payload, a raised `HTTPException`
(status code and `detail` string, rendered by FastAPI as a JSON body with a
`detail` field), or an exception that escaped the handler uncaught (FastAPI
then answers 500 `Internal Server Error` with no error text). -/
inductive HResp (α : Type) where
  | ok (val : α)
  | httpError (status : ℕ) (detail : String)
  | uncaught (msg : String)
deriving Repr, DecidableEq

/-- The payload of a 200 response, if the handler produced one. -/
def HResp.getOk {α : Type} : HResp α → Option α
  | .ok v => some v
  | _ => Option.none

/-- The status code of the HTTP response: the handler's own status for an
`HTTPException`, 200 for a payload, and 500 (FastAPI's generic
`Internal Server Error`) for an uncaught exception. -/
def HResp.statusCode {α : Type} : HResp α → ℕ
  | .ok _ => 200
  | .httpError s _ => s
  | .uncaught _ => 500

/-- Python `limit or 20` (main.py line 151): `None` and `0` are falsy, so
both fall back to the default `20`. -/
def limitOr20 : Option ℤ → ℤ
  | Option.none => 20
  | some v => if v = 0 then 20 else v

/-- The list comprehension `[serialize_product(d) for d in docs]` (main.py
line 152): serializes documents in order; the first failure raises. -/
def serializeAll : List Dict → Except String (List ProductOut)
  | [] => .ok []
  | d :: ds =>
    match serialize_product d with
    | .error m => .error m
    | .ok p =>
      match serializeAll ds with
      | .error m => .error m
      | .ok ps => .ok (p :: ps)

/-- `list_products` (main.py lines 147-154), `GET /api/products`.
`ensure_seed_products()` runs before — and outside — the `try` block, so an
exception raised while seeding escapes the handler uncaught; only failures of
`get_documents` and of the serialization loop are caught and re-raised as
`HTTPException(500, str(e))`. -/
def list_products (st : Store) (limit : Option ℤ) : Store × HResp (List ProductOut) :=
  match ensure_seed_products st with
  | (st', some m) => (st', .uncaught m)
  | (st', Option.none) =>
    match get_documents st' (limitOr20 limit) with
    | .error m => (st', .httpError 500 m)
    | .ok docs =>
      match serializeAll docs with
      | .error m => (st', .httpError 500 m)
      | .ok outs => (st', .ok outs)

/-- Pydantic's lax validation of a `float` field: numbers pass through,
numeric strings are coerced, everything else (including bools, which pydantic
rejects for `float` fields) fails. -/
def pydFloat : Value → Option ℚ
  | .num q => some q
  | .str s => parseFloat s
  | _ => Option.none

/-- `title: str = Field(...)`: a required string. -/
def pcTitle (body : Dict) : Except String String :=
  match dictGet body "title" with
  | some (.str s) => .ok s
  | some _ => .error "title: Input should be a valid string"
  | Option.none => .error "title: Field required"

/-- `Optional[str] = Field(None)` (`description`, `image`): absent or `null`
validate to `None`, otherwise a string is required. -/
def pcOptStrField (body : Dict) (k : String) : Except String (Option String) :=
  match dictGet body k with
  | Option.none => .ok Option.none
  | some v => asOptStr k v

/-- `price: float = Field(..., ge=0)`: a required number, rejected when
negative. -/
def pcPrice (body : Dict) : Except String ℚ :=
  match dictGet body "price" with
  | Option.none => .error "price: Field required"
  | some v =>
    match pydFloat v with
    | some q =>
      if 0 ≤ q then .ok q
      else .error "price: Input should be greater than or equal to 0"
    | Option.none => .error "price: Input should be a valid number"

/-- `category: str = Field("streetwear")`: a string, defaulting to
`"streetwear"` when absent. -/
def pcCategory (body : Dict) : Except String String :=
  match dictGet body "category" with
  | Option.none => .ok "streetwear"
  | some v => asStr "category" v

/-- `in_stock: bool = Field(True)`: a boolean, defaulting to `True`. -/
def pcInStock (body : Dict) : Except String Bool :=
  match dictGet body "in_stock" with
  | Option.none => .ok true
  | some (.bool b) => .ok b
  | some _ => .error "in_stock: Input should be a valid boolean"

/-- `colors: Optional[List[str]] = Field(default_factory=list)`: absent
defaults to `[]`, an explicit `null` validates to `None`, otherwise a list of
strings is required. -/
def pcColors (body : Dict) : Except String (Option (List String)) :=
  match dictGet body "colors" with
  | Option.none => .ok (some [])
  | some .none => .ok Option.none
  | some v => (asStrList "colors" v).map some

/-- FastAPI's validation of the request body against `ProductCreate`
(main.py lines 22-29): `title` a required string, `description`/`image`
optional strings, `price` a required number with `ge=0`, `category` a string
defaulting to `"streetwear"`, `in_stock` a boolean defaulting to `True`,
`colors` an optional list of strings defaulting to `[]` (an explicit `null`
validates to `None`). -/
def parseProductCreate (body : Dict) : Except String ProductCreate :=
  match pcTitle body with
  | .error m => .error m
  | .ok title =>
    match pcOptStrField body "description" with
    | .error m => .error m
    | .ok desc =>
      match pcPrice body with
      | .error m => .error m
      | .ok price =>
        match pcCategory body with
        | .error m => .error m
        | .ok category =>
          match pcInStock body with
          | .error m => .error m
          | .ok in_stock =>
            match pcOptStrField body "image" with
            | .error m => .error m
            | .ok image =>
              match pcColors body with
              | .error m => .error m
              | .ok colors =>
                .ok ⟨title, desc, price, category, in_stock, image, colors⟩

/-- `payload.model_dump()` (main.py line 168): the validated payload as a
plain dictionary, every declared field present, `None` values included. -/
def model_dump (p : ProductCreate) : Dict :=
  [("title", .str p.title),
   ("description", match p.description with | some s => .str s | Option.none => Value.none),
   ("price", .num p.price),
   ("category", .str p.category),
   ("in_stock", .bool p.in_stock),
   ("image", match p.image with | some s => .str s | Option.none => Value.none),
   ("colors", match p.colors with
     | some l => .list (l.map Value.str)
     | Option.none => Value.none)]

/-- Modelled from the spec: the `schemas.Product` constructor invoked at
main.py lines 161-167 is not in the source tree; per §4.4 the payload
validation it contributes is that `title` is required non-empty text (the
remaining shape and type constraints are already enforced by
`ProductCreate`). -/
def productSchemaCheck (p : ProductCreate) : Except String Unit :=
  if p.title = "" then
    .error "title: ensure this value is non-empty"
  else
    .ok ()

/-- The body of `create_product` (main.py lines 158-172), after FastAPI has
already validated the payload: every exception — schema validation, store
write failure, a failed re-fetch, serialization — is caught and re-raised as
`HTTPException(400, str(e))`. -/
def create_product_handler (st : Store) (p : ProductCreate) : Store × HResp ProductOut :=
  match productSchemaCheck p with
  | .error m => (st, .httpError 400 m)
  | .ok _ =>
    match create_document st (model_dump p) with
    | .error m => (st, .httpError 400 m)
    | .ok (st', newId) =>
      match find_one st' newId with
      | Option.none => (st', .httpError 400 "NoneType object has no attribute get")
      | some doc =>
        match serialize_product doc with
        | .error m => (st', .httpError 400 m)
        | .ok prod => (st', .ok prod)

/-- `POST /api/products` end to end: FastAPI first validates the body against
`ProductCreate`; a validation failure is answered by FastAPI itself with
status 422 (`RequestValidationError`) before the handler body runs, so
nothing is inserted.  Otherwise `create_product_handler` runs. -/
def create_product (st : Store) (body : Dict) : Store × HResp ProductOut :=
  match parseProductCreate body with
  | .error m => (st, .httpError 422 m)
  | .ok p => create_product_handler st p

/-! ## Diagnostic endpoint (main.py lines 46-80) -/

/-- The structured status report returned by `/test`.  The handler first
builds a defaults dict (main.py lines 49-56) and then mutates it; the
`database_url` / `database_name` slots are unconditionally overwritten from
the environment at lines 77-78, so they are always strings in the result. -/
structure TestReport where
  backend : String
  database : String
  database_url : String
  database_name : String
  connection_status : String
  collections : List String
deriving Repr, DecidableEq

/-- `test_database` (main.py lines 46-80).  Inputs: whether `db` is
initialised, the outcome of `db.list_collection_names()` (a list of names or
a raised error), and whether the `DATABASE_URL` / `DATABASE_NAME` environment
variables are set.  Every store interaction is wrapped in `try/except`, so
the function is total: errors only ever become degraded string fields, and
`collections[:10]` keeps at most ten names. -/
def test_database (dbSome : Bool) (collResult : Except String (List String))
    (urlSet nameSet : Bool) : TestReport :=
  let dbField : String × List String :=
    if dbSome then
      match collResult with
      | .ok cols => ("✅ Connected & Working", cols.take 10)
      | .error e => ("⚠️  Connected but Error: " ++ e.take 50, [])
    else
      ("⚠️  Available but not initialized", [])
  { backend := "✅ Running"
    database := dbField.1
    database_url := if urlSet then "✅ Set" else "❌ Not Set"
    database_name := if nameSet then "✅ Set" else "❌ Not Set"
    connection_status := if dbSome then "Connected" else "Not Connected"
    collections := dbField.2 }

/-- `GET /test`: the handler returns the report dict and raises nothing, so
FastAPI always answers with status 200. -/
def test_endpoint (dbSome : Bool) (collResult : Except String (List String))
    (urlSet nameSet : Bool) : ℕ × TestReport :=
  (200, test_database dbSome collResult urlSet nameSet)

/-! ## Shape predicates on stored documents -/

/-- Whether a value is a string. -/
def isStrV : Value → Bool
  | .str _ => true
  | _ => false

/-- Whether a value is `None` or a string. -/
def isOptStrV : Value → Bool
  | .none => true
  | .str _ => true
  | _ => false

/-- The field `k` is absent or bound to a string. -/
def strOrAbsent (doc : Dict) (k : String) : Bool :=
  match dictGet doc k with
  | Option.none => true
  | some v => isStrV v

/-- The field `k` is absent, `None`, or bound to a string. -/
def optStrOrAbsent (doc : Dict) (k : String) : Bool :=
  match dictGet doc k with
  | Option.none => true
  | some v => isOptStrV v

/-- The stored `price` (defaulted to `0` when absent, exactly as
`serialize_product` reads it) is coercible by `float(..)` and non-negative. -/
def priceWellTyped (doc : Dict) : Bool :=
  match pyFloat (dictGetD doc "price" (Value.num 0)) with
  | some q => decide (0 ≤ q)
  | Option.none => false

/-- The stored `colors`, after the code's `doc.get("colors") or []`
normalisation, is a list whose elements are all strings (any falsy stored
value qualifies, since it normalises to `[]`). -/
def colorsWellTyped (doc : Dict) : Bool :=
  match pyOr (dictGetD doc "colors" Value.none) (Value.list []) with
  | .list l => l.all isStrV
  | _ => false

/-- All the fields `serialize_product` validates have workable types: this
is exactly the condition under which the pydantic `ProductOut` construction
succeeds. -/
def docWellTyped (doc : Dict) : Bool :=
  strOrAbsent doc "title" && optStrOrAbsent doc "description" &&
  priceWellTyped doc && strOrAbsent doc "category" &&
  optStrOrAbsent doc "image" && colorsWellTyped doc

/-- A document without its store-assigned `_id` field, for comparing stored
documents with the payloads they came from. -/
def stripId (d : Dict) : Dict :=
  d.filter (fun kv => kv.1 != "_id")

/-- Every declared product attribute is present in the document (the seed
documents are fully populated in this sense). -/
def fullyPopulated (d : Dict) : Bool :=
  (dictGet d "title").isSome && (dictGet d "description").isSome &&
  (dictGet d "price").isSome && (dictGet d "category").isSome &&
  (dictGet d "in_stock").isSome && (dictGet d "image").isSome &&
  (dictGet d "colors").isSome

/-- Whether an `Except` computation succeeded. -/
def exceptOk {ε α : Type} : Except ε α → Bool
  | .ok _ => true
  | .error _ => false

/-! # Lemmas and claim theorems -/

/-- Inversion for a successful serialization: every field of the produced
`ProductOut` is determined by the corresponding read of the document. -/
theorem serialize_ok_fields (doc : Dict) (p : ProductOut)
    (h : serialize_product doc = .ok p) :
    p.id = pyStr (dictGetD doc "_id" Value.none) ∧
    asStr "title" (dictGetD doc "title" (Value.str "")) = .ok p.title ∧
    asOptStr "description" (dictGetD doc "description" Value.none) = .ok p.description ∧
    pyFloat (dictGetD doc "price" (Value.num 0)) = some p.price ∧
    asStr "category" (dictGetD doc "category" (Value.str "streetwear")) = .ok p.category ∧
    p.in_stock = pyBool (dictGetD doc "in_stock" (Value.bool true)) ∧
    asOptStr "image" (dictGetD doc "image" Value.none) = .ok p.image ∧
    asStrList "colors" (pyOr (dictGetD doc "colors" Value.none) (Value.list [])) = .ok p.colors := by
  unfold serialize_product at h
  split at h
  · exact absurd h (by simp)
  next price hprice =>
    split at h
    · exact absurd h (by simp)
    next title htitle =>
      split at h
      · exact absurd h (by simp)
      next desc hdesc =>
        split at h
        · split at h
          · exact absurd h (by simp)
          next cat hcat =>
            split at h
            · exact absurd h (by simp)
            next img himg =>
              split at h
              · exact absurd h (by simp)
              next colors hcolors =>
                cases h
                exact ⟨rfl, htitle, hdesc, hprice, hcat, rfl, himg, hcolors⟩
        · exact absurd h (by simp)

/-- Validating a list that is the image of strings succeeds and recovers
exactly those strings. -/
theorem asStrEach_map (f : String) (l : List String) :
    asStrEach f (l.map Value.str) = .ok l := by
  induction l with
  | nil => rfl
  | cons a l ih =>
    rw [List.map_cons]
    unfold asStrEach
    rw [ih]
    rfl

/-- A list of string values validates to some list of strings. -/
theorem asStrEach_ok_of_all (f : String) (l : List Value) (h : l.all isStrV = true) :
    ∃ ss, asStrEach f l = .ok ss := by
  induction l with
  | nil => exact ⟨[], rfl⟩
  | cons a l ih =>
    simp only [List.all_cons, Bool.and_eq_true] at h
    obtain ⟨ha, hl⟩ := h
    obtain ⟨ss, hss⟩ := ih hl
    cases a <;> simp [isStrV] at ha
    next s =>
    exact ⟨s :: ss, by unfold asStrEach; rw [hss]; rfl⟩

/-- C10: `serialize_product` maps every falsy stored `colors` value (absent,
null, `False`, `0`, `""`, `[]`) to the empty list, and renders a missing
`_id` as the non-empty string `"None"` (Python `str(None)`) instead of
failing. -/
theorem C10_falsy_colors_and_missing_id (doc : Dict) (p : ProductOut)
    (h : serialize_product doc = .ok p) :
    (pyBool (dictGetD doc "colors" Value.none) = false → p.colors = []) ∧
    (dictGet doc "_id" = Option.none → p.id = "None" ∧ p.id ≠ "") := by
  obtain ⟨hid, -, -, -, -, -, -, hcolors⟩ := serialize_ok_fields doc p h
  constructor
  · intro hf
    rw [pyOr, hf] at hcolors
    simp only [Bool.false_eq_true, if_false] at hcolors
    have : asStrList "colors" (Value.list []) = .ok [] := rfl
    rw [this] at hcolors
    exact (Except.ok.injEq _ _ ▸ hcolors).symm
  · intro habs
    rw [dictGetD, habs] at hid
    refine ⟨hid, ?_⟩
    rw [hid]
    simp [pyStr]

/-- C10 witness: a document whose `colors` is the falsy number `0` and which
lacks `_id` serializes with `colors = []` and `id = "None"`. -/
theorem C10_witness :
    (ProductOut.mk "None" "" Option.none 0 "streetwear" true Option.none []).colors = [] ∧
    (ProductOut.mk "None" "" Option.none 0 "streetwear" true Option.none []).id = "None" ∧
    (ProductOut.mk "None" "" Option.none 0 "streetwear" true Option.none []).id ≠ "" := by
  have hmain := C10_falsy_colors_and_missing_id [("colors", Value.num 0)]
    (ProductOut.mk "None" "" Option.none 0 "streetwear" true Option.none []) rfl
  exact ⟨hmain.1 rfl, (hmain.2 rfl).1, (hmain.2 rfl).2⟩

/-- C6 counterexample: the claim promises that `serialize_product` returns a
Product whose `price` is the numeric coercion of the stored value for every
stored document, but a stored `price` of `-3` coerces fine and the pydantic
`ProductOut` construction then rejects it (the `ge=0` bound is inherited from
`ProductCreate`), so no Product is returned at all. -/
theorem C6_counterexample :
    serialize_product [("price", Value.num (-3))] =
      .error "price: Input should be greater than or equal to 0" ∧
    pyFloat (dictGetD [("price", Value.num (-3))] "price" (Value.num 0)) = some (-3) := by
  exact ⟨rfl, rfl⟩

/-- C6 (amended): for every stored document that `serialize_product`
successfully serializes, the resulting Product obeys the defaulting contract:
`title` is the stored string or `""` when absent, `price` is the numeric
coercion of the stored value or `0` when absent, `category` is the stored
string or `"streetwear"`, `in_stock` is the stored value coerced to boolean
or `true` when absent, `colors` is the stored sequence of strings (absent or
null becoming `[]`, never null), and `description` / `image` pass through
(string or null). -/
theorem C6_serialization_defaulting (doc : Dict) (p : ProductOut)
    (h : serialize_product doc = .ok p) :
    (dictGet doc "title" = Option.none → p.title = "") ∧
    (∀ s, dictGet doc "title" = some (Value.str s) → p.title = s) ∧
    (dictGet doc "price" = Option.none → p.price = 0) ∧
    (∀ v q, dictGet doc "price" = some v → pyFloat v = some q → p.price = q) ∧
    (dictGet doc "category" = Option.none → p.category = "streetwear") ∧
    (∀ s, dictGet doc "category" = some (Value.str s) → p.category = s) ∧
    (dictGet doc "in_stock" = Option.none → p.in_stock = true) ∧
    (∀ v, dictGet doc "in_stock" = some v → p.in_stock = pyBool v) ∧
    (dictGet doc "colors" = Option.none ∨ dictGet doc "colors" = some Value.none →
      p.colors = []) ∧
    (∀ l, dictGet doc "colors" = some (Value.list (l.map Value.str)) → p.colors = l) ∧
    (dictGet doc "description" = Option.none ∨ dictGet doc "description" = some Value.none →
      p.description = Option.none) ∧
    (∀ s, dictGet doc "description" = some (Value.str s) → p.description = some s) ∧
    (dictGet doc "image" = Option.none ∨ dictGet doc "image" = some Value.none →
      p.image = Option.none) ∧
    (∀ s, dictGet doc "image" = some (Value.str s) → p.image = some s) := by
  obtain ⟨-, htitle, hdesc, hprice, hcat, hin, himg, hcolors⟩ := serialize_ok_fields doc p h
  refine ⟨?_, ?_, ?_, ?_, ?_, ?_, ?_, ?_, ?_, ?_, ?_, ?_, ?_, ?_⟩
  · intro h1
    rw [dictGetD, h1] at htitle
    exact (Except.ok.injEq _ _ ▸ htitle).symm
  · intro s h1
    rw [dictGetD, h1] at htitle
    exact (Except.ok.injEq _ _ ▸ htitle).symm
  · intro h1
    rw [dictGetD, h1] at hprice
    exact (Option.some.injEq _ _ ▸ hprice).symm
  · intro v q h1 h2
    rw [dictGetD, h1] at hprice
    simp only [Option.getD_some] at hprice
    rw [h2] at hprice
    exact (Option.some.injEq _ _ ▸ hprice).symm
  · intro h1
    rw [dictGetD, h1] at hcat
    exact (Except.ok.injEq _ _ ▸ hcat).symm
  · intro s h1
    rw [dictGetD, h1] at hcat
    exact (Except.ok.injEq _ _ ▸ hcat).symm
  · intro h1
    rw [dictGetD, h1] at hin
    exact hin
  · intro v h1
    rw [dictGetD, h1] at hin
    exact hin
  · intro h1
    have hv : pyOr (dictGetD doc "colors" Value.none) (Value.list []) = Value.list [] := by
      rcases h1 with h1 | h1 <;> rw [dictGetD, h1] <;> rfl
    rw [hv] at hcolors
    exact (Except.ok.injEq _ _ ▸ hcolors).symm
  · intro l h1
    rw [dictGetD, h1] at hcolors
    rcases l with - | ⟨c, l'⟩
    · rw [show pyOr (Option.getD (some (Value.list (List.map Value.str []))) Value.none)
          (Value.list []) = Value.list [] from rfl] at hcolors
      exact (Except.ok.injEq _ _ ▸ hcolors).symm
    · rw [show pyOr (Option.getD (some (Value.list (List.map Value.str (c :: l')))) Value.none)
          (Value.list []) = Value.list (List.map Value.str (c :: l')) from rfl] at hcolors
      rw [show asStrList "colors" (Value.list (List.map Value.str (c :: l'))) =
          asStrEach "colors" (List.map Value.str (c :: l')) from rfl,
        asStrEach_map] at hcolors
      exact (Except.ok.injEq _ _ ▸ hcolors).symm
  · intro h1
    have hv : dictGetD doc "description" Value.none = Value.none := by
      rcases h1 with h1 | h1 <;> rw [dictGetD, h1] <;> rfl
    rw [hv] at hdesc
    exact (Except.ok.injEq _ _ ▸ hdesc).symm
  · intro s h1
    rw [dictGetD, h1] at hdesc
    exact (Except.ok.injEq _ _ ▸ hdesc).symm
  · intro h1
    have hv : dictGetD doc "image" Value.none = Value.none := by
      rcases h1 with h1 | h1 <;> rw [dictGetD, h1] <;> rfl
    rw [hv] at himg
    exact (Except.ok.injEq _ _ ▸ himg).symm
  · intro s h1
    rw [dictGetD, h1] at himg
    exact (Except.ok.injEq _ _ ▸ himg).symm

/-- C6 witness: a concrete document exercising the defaults (`title` and
`category` absent, `colors` null, `price` stored as the number `2`). -/
theorem C6_witness :
    (ProductOut.mk "None" "" Option.none 2 "streetwear" true Option.none []).title = "" ∧
    (ProductOut.mk "None" "" Option.none 2 "streetwear" true Option.none []).price = 2 ∧
    (ProductOut.mk "None" "" Option.none 2 "streetwear" true Option.none []).category = "streetwear" ∧
    (ProductOut.mk "None" "" Option.none 2 "streetwear" true Option.none []).colors = [] := by
  have hmain := C6_serialization_defaulting [("price", Value.num 2), ("colors", Value.none)]
    (ProductOut.mk "None" "" Option.none 2 "streetwear" true Option.none []) rfl
  exact ⟨hmain.1 rfl, hmain.2.2.2.1 (Value.num 2) 2 rfl rfl,
    hmain.2.2.2.2.1 rfl, hmain.2.2.2.2.2.2.2.2.1 (Or.inr rfl)⟩

/-- A value passing the string check is a string. -/
theorem isStrV_eq (v : Value) (h : isStrV v = true) : ∃ s, v = Value.str s := by
  cases v <;> simp_all [isStrV]

/-- A value passing the optional-string check is `None` or a string. -/
theorem isOptStrV_eq (v : Value) (h : isOptStrV v = true) :
    v = Value.none ∨ ∃ s, v = Value.str s := by
  cases v <;> simp_all [isOptStrV]

/-- A `str`-typed field that is absent or a string validates. -/
theorem strOrAbsent_asStr (f k d : String) (doc : Dict) (h : strOrAbsent doc k = true) :
    ∃ s, asStr f (dictGetD doc k (Value.str d)) = .ok s := by
  unfold strOrAbsent at h
  rcases hg : dictGet doc k with - | v <;> rw [hg] at h
  · exact ⟨d, by rw [dictGetD, hg]; rfl⟩
  · obtain ⟨s, rfl⟩ := isStrV_eq v h
    exact ⟨s, by rw [dictGetD, hg]; rfl⟩

/-- An `Optional[str]`-typed field that is absent, null or a string
validates. -/
theorem optStrOrAbsent_asOptStr (f k : String) (doc : Dict)
    (h : optStrOrAbsent doc k = true) :
    ∃ o, asOptStr f (dictGetD doc k Value.none) = .ok o := by
  unfold optStrOrAbsent at h
  rcases hg : dictGet doc k with - | v <;> rw [hg] at h
  · exact ⟨Option.none, by rw [dictGetD, hg]; rfl⟩
  · rcases isOptStrV_eq v h with rfl | ⟨s, rfl⟩
    · exact ⟨Option.none, by rw [dictGetD, hg]; rfl⟩
    · exact ⟨some s, by rw [dictGetD, hg]; rfl⟩

/-- A well-typed stored price coerces to a non-negative rational. -/
theorem priceWellTyped_pyFloat (doc : Dict) (h : priceWellTyped doc = true) :
    ∃ q, pyFloat (dictGetD doc "price" (Value.num 0)) = some q ∧ 0 ≤ q := by
  unfold priceWellTyped at h
  rcases hg : pyFloat (dictGetD doc "price" (Value.num 0)) with - | q <;> rw [hg] at h
  · exact absurd h (by simp)
  · exact ⟨q, rfl, by simpa using h⟩

/-- Well-typed stored colors validate to some list of strings. -/
theorem colorsWellTyped_asStrList (doc : Dict) (h : colorsWellTyped doc = true) :
    ∃ ss, asStrList "colors" (pyOr (dictGetD doc "colors" Value.none) (Value.list [])) =
      .ok ss := by
  unfold colorsWellTyped at h
  rcases hg : pyOr (dictGetD doc "colors" Value.none) (Value.list [])
      with - | b | q | s | l <;> rw [hg] at h
  case list =>
    obtain ⟨ss, hss⟩ := asStrEach_ok_of_all "colors" l h
    exact ⟨ss, by rw [show asStrList "colors" (Value.list l) =
      asStrEach "colors" l from rfl, hss]⟩
  all_goals exact absurd h (by simp)

/-- C2 counterexample: `serialize_product` is claimed total on every stored
document, but a stored `price` of `None` makes `float(doc.get("price", 0))`
raise `TypeError`, so the function fails rather than returning a Product. -/
theorem C2_counterexample :
    serialize_product [("price", Value.none)] =
      .error "float() argument must be a string or a real number" := by
  exact rfl

/-- C2 (amended): `serialize_product` is a pure function of the document and
succeeds on every stored document whose fields are well-typed — `title` and
`category` absent or strings, `description` and `image` absent, null or
strings, `price` absent or coercible by `float(..)` to a non-negative number,
and `colors` falsy or a list of strings.  (On ill-typed fields — e.g. a null
or negative stored `price` — it raises instead of defaulting.) -/
theorem C2_total_on_welltyped (doc : Dict) (h : docWellTyped doc = true) :
    exceptOk (serialize_product doc) = true := by
  simp only [docWellTyped, Bool.and_eq_true] at h
  obtain ⟨⟨⟨⟨⟨ht, hd⟩, hp⟩, hc⟩, hi⟩, hcol⟩ := h
  obtain ⟨q, hq, hq0⟩ := priceWellTyped_pyFloat doc hp
  obtain ⟨ts, hts⟩ := strOrAbsent_asStr "title" "title" "" doc ht
  obtain ⟨ds, hds⟩ := optStrOrAbsent_asOptStr "description" "description" doc hd
  obtain ⟨cs, hcs⟩ := strOrAbsent_asStr "category" "category" "streetwear" doc hc
  obtain ⟨ims, him⟩ := optStrOrAbsent_asOptStr "image" "image" doc hi
  obtain ⟨ss, hss⟩ := colorsWellTyped_asStrList doc hcol
  simp [serialize_product, hq, hts, hds, hcs, him, hss, hq0, exceptOk]

/-- C2 witness: a concrete well-typed document serializes successfully. -/
theorem C2_witness :
    docWellTyped [("title", Value.str "A"), ("price", Value.num 1)] = true ∧
    exceptOk (serialize_product [("title", Value.str "A"), ("price", Value.num 1)]) = true :=
  ⟨rfl, C2_total_on_welltyped [("title", Value.str "A"), ("price", Value.num 1)] rfl⟩

/-- A request body whose `price` is a negative number fails `ProductCreate`
validation. -/
theorem parse_error_of_neg_price (body : Dict) (q : ℚ)
    (hq : dictGet body "price" = some (Value.num q)) (hneg : q < 0) :
    ∃ m, parseProductCreate body = .error m := by
  have hp : pcPrice body = .error "price: Input should be greater than or equal to 0" := by
    unfold pcPrice
    rw [hq]
    simp [pydFloat, not_le.mpr hneg]
  unfold parseProductCreate
  rcases h1 : pcTitle body with m | t
  · exact ⟨m, rfl⟩
  · rcases h2 : pcOptStrField body "description" with m | d
    · exact ⟨m, rfl⟩
    · exact ⟨_, by rw [hp]⟩

/-- C1 counterexample: the claim puts the rejection at HTTP 400, but the
`ge=0` bound on `ProductCreate.price` is enforced by FastAPI's request-body
validation, which answers 422 (`RequestValidationError`), not 400; the store
is untouched either way. -/
theorem C1_counterexample :
    (create_product (Store.mk true [] 0 Option.none Option.none Option.none)
        [("title", Value.str "Tee"), ("price", Value.num (-5))]).2.statusCode = 422 ∧
    ¬ (create_product (Store.mk true [] 0 Option.none Option.none Option.none)
        [("title", Value.str "Tee"), ("price", Value.num (-5))]).2.statusCode = 400 ∧
    (create_product (Store.mk true [] 0 Option.none Option.none Option.none)
        [("title", Value.str "Tee"), ("price", Value.num (-5))]).1.product = [] := by
  exact ⟨rfl, by decide, rfl⟩

/-- C1 (amended): every `POST /api/products` body whose `price` is a negative
number is rejected with HTTP 422 (FastAPI request validation, carrying a
validation detail) before the handler body runs: no document is inserted and
the store is unchanged. -/
theorem C1_neg_price_rejected (st : Store) (body : Dict) (q : ℚ)
    (hq : dictGet body "price" = some (Value.num q)) (hneg : q < 0) :
    (create_product st body).1 = st ∧
    (create_product st body).2.statusCode = 422 ∧
    (create_product st body).2.getOk = Option.none := by
  obtain ⟨m, hm⟩ := parse_error_of_neg_price body q hq hneg
  simp [create_product, hm, HResp.statusCode, HResp.getOk]

/-- C1 witness: a store with one document and a payload `price = -1`. -/
theorem C1_witness :
    (create_product (Store.mk true [[("_id", Value.str "x")]] 3 Option.none Option.none Option.none)
        [("title", Value.str "Hat"), ("price", Value.num (-1))]).1 =
      Store.mk true [[("_id", Value.str "x")]] 3 Option.none Option.none Option.none ∧
    (create_product (Store.mk true [[("_id", Value.str "x")]] 3 Option.none Option.none Option.none)
        [("title", Value.str "Hat"), ("price", Value.num (-1))]).2.statusCode = 422 ∧
    (create_product (Store.mk true [[("_id", Value.str "x")]] 3 Option.none Option.none Option.none)
        [("title", Value.str "Hat"), ("price", Value.num (-1))]).2.getOk = Option.none := by
  exact C1_neg_price_rejected _ _ (-1) rfl (by norm_num)

/-- C4: on a healthy store (db initialised, no underlying store errors),
`ensure_seed_products` is a no-op when the `product` collection is
non-empty; on an empty collection it raises nothing and inserts exactly the
four fixed seed documents, in their fixed order (each stored document is the
seed item plus the store-assigned `_id`), every one fully populated (title,
description, price, category, in_stock, image and colors all present). -/
theorem C4_seeding (prod : List Dict) (i : ℕ) (re : Option String) :
    (prod ≠ [] →
      ensure_seed_products (Store.mk true prod i Option.none Option.none re) =
        (Store.mk true prod i Option.none Option.none re, Option.none)) ∧
    (ensure_seed_products (Store.mk true [] i Option.none Option.none re)).2 = Option.none ∧
    (ensure_seed_products (Store.mk true [] i Option.none Option.none re)).1.product.length = 4 ∧
    (ensure_seed_products (Store.mk true [] i Option.none Option.none re)).1.product.map stripId
      = seed_items ∧
    (ensure_seed_products (Store.mk true [] i Option.none Option.none re)).1.product.all
      fullyPopulated = true := by
  refine ⟨?_, rfl, rfl, rfl, rfl⟩
  intro hne
  unfold ensure_seed_products count_documents
  simp [List.length_eq_zero, hne]

/-- C4 witness: a store holding one document is left untouched; an empty
store receives the four seeds. -/
theorem C4_witness :
    ensure_seed_products (Store.mk true [[("_id", Value.str "a")]] 0
        Option.none Option.none Option.none) =
      (Store.mk true [[("_id", Value.str "a")]] 0 Option.none Option.none Option.none,
        Option.none) ∧
    (ensure_seed_products (Store.mk true [] 0 Option.none Option.none
        Option.none)).1.product.length = 4 := by
  have hmain := C4_seeding [[("_id", Value.str "a")]] 0 Option.none
  have hempty := C4_seeding [] 0 Option.none
  exact ⟨hmain.1 (List.cons_ne_nil _ _), hempty.2.2.1⟩

/-- C3 counterexample: `ensure_seed_products()` is called before — and
outside — the `try` block of `list_products`, so a store failure raised while
seeding (here: `count_documents` failing with "boom") escapes the handler
uncaught instead of being translated into an `HTTPException(500, detail)`. -/
theorem C3_counterexample :
    (list_products (Store.mk true [] 0 (some "boom") Option.none Option.none) Option.none).2 =
      HResp.uncaught "boom" ∧
    (HResp.uncaught "boom" : HResp (List ProductOut)) ≠ HResp.httpError 500 "boom" := by
  exact ⟨rfl, by decide⟩

/-- C3 (amended): a store failure raised while fetching the listing — an
uninitialised store, or `get_documents` failing after a successful seeding
check — is translated to HTTP 500 with the error text as `detail`; only
exceptions raised during the seeding step itself escape the handler
uncaught. -/
theorem C3_read_failures_500 (prod : List Dict) (i : ℕ) (lim : Option ℤ) (m : String) :
    (list_products (Store.mk true prod i Option.none Option.none (some m)) lim).2 =
      .httpError 500 m ∧
    (∀ st : Store, st.dbSome = false →
      (list_products st lim).2 = .httpError 500 "StoreUnavailable: database not initialized") := by
  constructor
  · rcases prod with - | ⟨d, ds⟩
    · rfl
    · rfl
  · intro st h
    obtain ⟨db, prod, j, ce, we, re⟩ := st
    have h' : db = false := h
    subst h'
    rfl

/-- C3 witness: a read error on a non-empty healthy store becomes a 500 with
its text; an uninitialised store becomes a 500 with the unavailability
text. -/
theorem C3_witness :
    (list_products (Store.mk true [[("_id", Value.str "a")]] 1 Option.none Option.none
        (some "disk failure")) (some 5)).2 = .httpError 500 "disk failure" ∧
    (list_products (Store.mk false [] 0 Option.none Option.none Option.none) (some 5)).2 =
      .httpError 500 "StoreUnavailable: database not initialized" := by
  have hmain := C3_read_failures_500 [[("_id", Value.str "a")]] 1 (some 5) "disk failure"
  exact ⟨hmain.1, hmain.2 (Store.mk false [] 0 Option.none Option.none Option.none) rfl⟩

/-- C8: `/test` is total — for every store connectivity state (db
uninitialised, connected with collections listable, or
`list_collection_names` raising) the handler answers HTTP 200 with a
structured report, never raising; errors surface only as degraded string
fields and at most 10 collection names are reported. -/
theorem C8_test_total (dbSome : Bool) (collResult : Except String (List String))
    (urlSet nameSet : Bool) :
    (test_endpoint dbSome collResult urlSet nameSet).1 = 200 ∧
    (test_endpoint dbSome collResult urlSet nameSet).2.collections.length ≤ 10 ∧
    (dbSome = false →
      (test_endpoint dbSome collResult urlSet nameSet).2.database =
        "⚠️  Available but not initialized") ∧
    (dbSome = true → ∀ e, collResult = .error e →
      (test_endpoint dbSome collResult urlSet nameSet).2.database =
        "⚠️  Connected but Error: " ++ e.take 50) := by
  refine ⟨rfl, ?_, ?_, ?_⟩
  · cases dbSome
    · rcases collResult with e | cols <;> simp [test_endpoint, test_database]
    · rcases collResult with e | cols
      · simp [test_endpoint, test_database]
      · show (cols.take 10).length ≤ 10
        rw [List.length_take]
        exact min_le_left _ _
  · intro h
    subst h
    rcases collResult with e | cols <;> rfl
  · intro h e he
    subst h
    subst he
    rfl

/-- C8 witness: a connected store whose collection listing raises `"x"`. -/
theorem C8_witness :
    (test_endpoint true (.error "x") true false).1 = 200 ∧
    (test_endpoint true (.error "x") true false).2.collections.length ≤ 10 ∧
    (test_endpoint true (.error "x") true false).2.database =
      "⚠️  Connected but Error: " ++ ("x".take 50) := by
  have hmain := C8_test_total true (.error "x") true false
  exact ⟨hmain.1, hmain.2.1, hmain.2.2.2 rfl "x" rfl⟩

/-- C9: `limit or 20` treats an explicit `limit = 0` exactly like an omitted
limit — the listing is fetched with the default 20 — so `limit=0` against a
healthy non-empty store does not produce an empty listing. -/
theorem C9_limit_zero_default (st : Store) (d : Dict) (ds : List Dict) (i : ℕ) :
    list_products st (some 0) = list_products st Option.none ∧
    (∀ out, (list_products (Store.mk true (d :: ds) i Option.none Option.none Option.none)
        (some 0)).2 = .ok out → out ≠ []) := by
  constructor
  · rfl
  · intro out hok
    simp [list_products, ensure_seed_products, count_documents, get_documents, limitOr20] at hok
    rcases h1 : serialize_product d with m | p
    · simp only [serializeAll, h1] at hok
      exact absurd hok (by simp)
    · rcases h2 : serializeAll (List.take 19 ds) with m | ps
      · simp only [serializeAll, h1, h2] at hok
        exact absurd hok (by simp)
      · simp only [serializeAll, h1, h2] at hok
        have h3 : p :: ps = out := by injection hok
        rw [← h3]
        exact List.cons_ne_nil _ _

/-- C9 witness: a store with one stored document, queried with `limit=0`. -/
theorem C9_witness :
    list_products (Store.mk true [[("_id", Value.str "b"), ("title", Value.str "U"),
        ("price", Value.num 2)]] 0 Option.none Option.none Option.none) (some 0) =
      list_products (Store.mk true [[("_id", Value.str "b"), ("title", Value.str "U"),
        ("price", Value.num 2)]] 0 Option.none Option.none Option.none) Option.none ∧
    ([ProductOut.mk "b" "U" Option.none 2 "streetwear" true Option.none []] :
      List ProductOut) ≠ [] := by
  have hmain := C9_limit_zero_default
    (Store.mk true [[("_id", Value.str "b"), ("title", Value.str "U"),
      ("price", Value.num 2)]] 0 Option.none Option.none Option.none)
    [("_id", Value.str "b"), ("title", Value.str "U"), ("price", Value.num 2)] [] 0
  exact ⟨hmain.1, hmain.2 _ rfl⟩

/-- Inversion for a successful read: the documents are the first `lim` of the
collection. -/
theorem get_documents_ok (st : Store) (lim : ℤ) (docs : List Dict)
    (h : get_documents st lim = .ok docs) : docs = st.product.take lim.toNat := by
  unfold get_documents at h
  split at h
  · exact absurd h (by simp)
  · split at h
    · exact absurd h (by simp)
    · injection h with h'
      exact h'.symm

/-- A successful serialization of a listing preserves its length. -/
theorem serializeAll_length (l : List Dict) (out : List ProductOut)
    (h : serializeAll l = .ok out) : out.length = l.length := by
  induction l generalizing out with
  | nil =>
    injection h with h'
    subst h'
    rfl
  | cons d ds ih =>
    unfold serializeAll at h
    split at h
    · exact absurd h (by simp)
    next p hp =>
      split at h
      · exact absurd h (by simp)
      next ps hps =>
        injection h with h'
        rw [← h']
        simp [ih ps hps]

/-- Any successful listing holds at most `limit or 20` products. -/
theorem list_products_ok_length (st : Store) (lim : Option ℤ) (out : List ProductOut)
    (h : (list_products st lim).2 = .ok out) : out.length ≤ (limitOr20 lim).toNat := by
  unfold list_products at h
  split at h
  · exact absurd h (by simp)
  next st' hseed =>
    split at h
    · exact absurd h (by simp)
    next docs hdocs =>
      split at h
      · exact absurd h (by simp)
      next outs houts =>
        have hout : outs = out := by injection h
        calc out.length = docs.length := by
              rw [← hout]
              exact serializeAll_length docs outs houts
          _ ≤ (limitOr20 lim).toNat := by
              rw [get_documents_ok st' _ docs hdocs, List.length_take]
              exact min_le_left _ _

/-- C7 counterexample: the claim promises at most `n` products for every
requested `limit = n`, but `limit=0` is falsy in Python, so `limit or 20`
fetches with the default 20: listing an empty healthy store with `limit=0`
returns the 4 seeds, not at most 0 items. -/
theorem C7_counterexample :
    (list_products (Store.mk true [] 0 Option.none Option.none Option.none)
        (some 0)).2.getOk.map List.length = some 4 ∧
    ¬ (4 : ℕ) ≤ 0 := by
  exact ⟨rfl, by decide⟩

/-- C7 (amended): for every requested `limit = n` with `n ≥ 1` the listing
returns at most `n` products; an omitted limit returns at most the default
20; and seeding runs before the fetch, so listing an empty healthy store
already returns the (4) seed documents. -/
theorem C7_limit_bound (st : Store) (n : ℤ) (out out20 : List ProductOut) (i : ℕ) :
    (1 ≤ n → (list_products st (some n)).2 = .ok out → out.length ≤ n.toNat) ∧
    ((list_products st Option.none).2 = .ok out20 → out20.length ≤ 20) ∧
    (list_products (Store.mk true [] i Option.none Option.none Option.none)
        (some 20)).2.getOk.map List.length = some 4 := by
  refine ⟨?_, ?_, rfl⟩
  · intro hn hok
    have hlen := list_products_ok_length st (some n) out hok
    have hl : limitOr20 (some n) = n := by
      show (if n = 0 then (20 : ℤ) else n) = n
      rw [if_neg (by omega : ¬ n = 0)]
    rw [hl] at hlen
    exact hlen
  · intro hok
    exact list_products_ok_length st Option.none out20 hok

/-- C7 witness: a store with one document listed with `limit=1` and with the
limit omitted. -/
theorem C7_witness :
    ([ProductOut.mk "a" "T" Option.none 1 "streetwear" true Option.none []] :
        List ProductOut).length ≤ (1 : ℤ).toNat ∧
    ([ProductOut.mk "a" "T" Option.none 1 "streetwear" true Option.none []] :
        List ProductOut).length ≤ 20 ∧
    (list_products (Store.mk true [] 0 Option.none Option.none Option.none)
        (some 20)).2.getOk.map List.length = some 4 := by
  have hmain := C7_limit_bound
    (Store.mk true [[("_id", Value.str "a"), ("title", Value.str "T"),
      ("price", Value.num 1)]] 0 Option.none Option.none Option.none) 1
    [ProductOut.mk "a" "T" Option.none 1 "streetwear" true Option.none []]
    [ProductOut.mk "a" "T" Option.none 1 "streetwear" true Option.none []] 0
  exact ⟨hmain.1 (by decide) rfl, hmain.2.1 rfl, hmain.2.2⟩

/-- A collection in which no document carries the fresh identifier yields no
`find_one` match. -/
theorem find_one_fresh (prod : List Dict) (oid : String)
    (h : prod.all (fun d => match dictGet d "_id" with
      | some (.str s) => s != oid
      | _ => true) = true) :
    prod.find? (fun d => match dictGet d "_id" with
      | some (.str s) => s == oid
      | _ => false) = Option.none := by
  rw [List.find?_eq_none]
  intro d hd
  have hall := (List.all_eq_true.mp h) d hd
  rcases hg : dictGet d "_id" with - | v
  · simp [hg]
  · rw [hg] at hall
    cases v <;> simp [hg]
    next s =>
      rw [bne_iff_ne] at hall
      exact hall

/-- Serializing the stored form of a validated payload (its `model_dump`
plus the store-assigned `_id`) recovers every submitted field, with a
list-valued `colors` preserved in order. -/
theorem serialize_model_dump (p : ProductCreate) (cs : List String) (oid : String)
    (hpr : 0 ≤ p.price) (hc : p.colors = some cs) :
    serialize_product (("_id", Value.str oid) :: model_dump p) =
      .ok ⟨oid, p.title, p.description, p.price, p.category, p.in_stock, p.image, cs⟩ := by
  obtain ⟨t, d, pr, c, ins, im, co⟩ := p
  have hc' : co = some cs := hc
  subst hc'
  have hpr' : 0 ≤ pr := hpr
  cases d <;> cases im <;> rcases cs with - | ⟨c0, cs'⟩ <;>
    simp [serialize_product, model_dump, dictGetD, dictGet, asStr, asOptStr, asStrList,
      asStrEach, pyOr, pyBool, pyFloat, pyStr, hpr', asStrEach_map]

/-- C5 counterexample: a valid payload may carry an explicit `null` for
`colors` (its type is `Optional[List[str]]`); the POST then succeeds but the
returned Product carries `colors = []`, not the submitted `null`, so the
response does not equal the submission on `colors`. -/
theorem C5_counterexample :
    (create_product (Store.mk true [] 0 Option.none Option.none Option.none)
        [("title", Value.str "Tee"), ("price", Value.num 10), ("colors", Value.none)]).2 =
      .ok (ProductOut.mk "oid0" "Tee" Option.none 10 "streetwear" true Option.none []) ∧
    dictGet [("title", Value.str "Tee"), ("price", Value.num 10), ("colors", Value.none)]
      "colors" = some Value.none ∧
    Value.none ≠ Value.list ([] : List Value) := by
  refine ⟨rfl, rfl, fun h => Value.noConfusion h⟩

/-- C5 (amended): for every valid creation payload whose `colors` is an
actual (possibly empty) sequence, `POST /api/products` inserts exactly the
payload's `model_dump` (stamped with the fresh store id), returns a Product
with the submitted `title`, `price`, `category`, `in_stock` and `colors`
(order preserved), and the stored document re-serializes — as `GET
/api/products` would — to that same Product.  (A payload submitting `colors:
null` is instead normalised to `[]` in the response.) -/
theorem C5_roundtrip (st : Store) (p : ProductCreate) (cs : List String)
    (hdb : st.dbSome = true) (hw : st.writeErr = Option.none)
    (ht : p.title ≠ "") (hpr : 0 ≤ p.price) (hc : p.colors = some cs)
    (hfresh : st.product.all (fun d => match dictGet d "_id" with
      | some (.str s) => s != genId st.nextId
      | _ => true) = true) :
    create_product_handler st p =
      ({ st with
          product := st.product ++ [("_id", Value.str (genId st.nextId)) :: model_dump p],
          nextId := st.nextId + 1 },
        .ok ⟨genId st.nextId, p.title, p.description, p.price, p.category, p.in_stock,
          p.image, cs⟩) ∧
    serialize_product (("_id", Value.str (genId st.nextId)) :: model_dump p) =
      .ok ⟨genId st.nextId, p.title, p.description, p.price, p.category, p.in_stock,
        p.image, cs⟩ := by
  have hser := serialize_model_dump p cs (genId st.nextId) hpr hc
  refine ⟨?_, hser⟩
  have hschema : productSchemaCheck p = .ok () := by
    unfold productSchemaCheck
    rw [if_neg ht]
  have hcreate : create_document st (model_dump p) =
      .ok ({ st with
          product := st.product ++ [("_id", Value.str (genId st.nextId)) :: model_dump p],
          nextId := st.nextId + 1 }, genId st.nextId) := by
    unfold create_document
    rw [hdb, hw]
    rfl
  have hfind : find_one { st with
      product := st.product ++ [("_id", Value.str (genId st.nextId)) :: model_dump p],
      nextId := st.nextId + 1 } (genId st.nextId) =
      some (("_id", Value.str (genId st.nextId)) :: model_dump p) := by
    show (st.product ++ [("_id", Value.str (genId st.nextId)) :: model_dump p]).find?
      (fun d => match dictGet d "_id" with
        | some (.str s) => s == genId st.nextId
        | _ => false) = some (("_id", Value.str (genId st.nextId)) :: model_dump p)
    rw [List.find?_append, find_one_fresh st.product (genId st.nextId) hfresh,
      Option.none_or]
    simp [dictGet]
  simp only [create_product_handler, hschema, hcreate, hfind, hser]

/-- C5 witness: posting the payload
`{title: "Cap", description: "d", price: 5, category: "hats", colors: ["red"]}`
against an empty healthy store. -/
theorem C5_witness :
    (create_product_handler (Store.mk true [] 0 Option.none Option.none Option.none)
        (ProductCreate.mk "Cap" (some "d") 5 "hats" true Option.none (some ["red"]))).2 =
      .ok (ProductOut.mk "oid0" "Cap" (some "d") 5 "hats" true Option.none ["red"]) := by
  have hmain := C5_roundtrip (Store.mk true [] 0 Option.none Option.none Option.none)
    (ProductCreate.mk "Cap" (some "d") 5 "hats" true Option.none (some ["red"])) ["red"]
    rfl rfl (by decide) (by norm_num) rfl rfl
  rw [hmain.1]
  rfl

end StreetArt
